import Mathlib

/-!
Shallow embedding of the prop-control-gui camera/health components.

The repository has four source files:
- src/unnamed/part_000: a React App.tsx with a hardcoded camera panel
  (left/right buttons POSTing to fixed addresses);
- src/unnamed/part_001: two revisions of a Vue camera panel separated by a
  document separator.  Revision 1 (lines 1-97) declares server_ip, cameras
  and arr but no text ref, never resets arr, and its pan commands use the
  camera ip itself as URL base.  Revision 2 (lines 97-end) declares a text
  ref, resets arr at the start of every get_list, and its pan commands use
  the server address as base, with cam_right sending x_movement=-0.2 and
  cam_left sending x_movement=0.2.
- src/src/components/server_bar.vue: the health monitor (fetchServerHealth
  on a 1000 ms setInterval, probe timeout 1000 ms, no auth header).
- src/src/App.vue: navigation chrome only (out of scope).

JavaScript values are modelled with Option (none stands for undefined),
fetch outcomes with explicit outcome inductives chosen by the environment,
and each handler as a pure function from state and outcome to state plus
the list of HTTP requests it issues.
-/

/-- One HTTP request as issued by a fetch call: method, full URL string and
the literal header list passed to fetch. -/
structure Request where
  method : String
  url : String
  headers : List (String × String)
deriving Repr, DecidableEq

/-- The base64 alphabet used by the browser btoa function. -/
def base64Alphabet : List Char :=
  "ABCDEFGHIJKLMNOPQRSTUVWXYZabcdefghijklmnopqrstuvwxyz0123456789+/".toList

/-- Character of the base64 alphabet at a 6-bit index. -/
def b64Char (n : Nat) : Char := base64Alphabet.getD n 'A'

/-- Base64 encoding of a byte list, with padding, as btoa produces. -/
def btoaBytes : List Nat → String
  | [] => ""
  | [a] => String.mk [b64Char (a / 4), b64Char (a % 4 * 16)] ++ "=="
  | [a, b] =>
      String.mk [b64Char (a / 4), b64Char (a % 4 * 16 + b / 16),
        b64Char (b % 16 * 4)] ++ "="
  | a :: b :: c :: rest =>
      String.mk [b64Char (a / 4), b64Char (a % 4 * 16 + b / 16),
        b64Char (b % 16 * 4 + c / 64), b64Char (c % 64)] ++ btoaBytes rest

/-- The browser btoa on a latin-1 string. -/
def btoa (s : String) : String := btoaBytes (s.toList.map Char.toNat)

/-- The credential value every panel fetch builds inline:
Basic followed by btoa of admin:propteambestteam. -/
def authHeaderValue : String := "Basic " ++ btoa "admin:propteambestteam"

/-- JavaScript template-literal rendering of a possibly-undefined string:
undefined interpolates as the text undefined. -/
def jsString : Option String → String
  | none => "undefined"
  | some s => s

/-- One camera record as found in the cameras field of the directory
response body: hostname, control ip and stream path. -/
structure Camera where
  hostname : String
  ip : String
  stream_path : String
deriving Repr, DecidableEq

/-- The parsed JSON body of a directory response; the cameras field may be
absent (none), in which case body.cameras is undefined. -/
structure CamerasBody where
  cameras : Option (List Camera)
deriving Repr, DecidableEq

/-- Environment-chosen outcome of the camera-list fetch chain: the fetch
promise rejects (network failure), the json() call rejects (malformed
body), or a parsed body is delivered. -/
inductive FetchOutcome where
  | reject (msg : String)
  | bodyReject (msg : String)
  | ok (body : CamerasBody)
deriving Repr, DecidableEq

/-- The JavaScript error value that reaches the catch handler of
get_list. -/
inductive JsError where
  | fetchFailed (msg : String)
  | jsonDecode (msg : String)
  | typeErrorUndefinedForEach
deriving Repr, DecidableEq

/-- Values taken by the text ref of camera panel revision 2: initial
undefined, the literal Fetching Cameras..., JSON.stringify of the body, the
literal Cameras Loaded Successfully, a caught error object, or the literal
t set by cam_right. -/
inductive TextVal where
  | undef
  | fetching
  | stringified (body : CamerasBody)
  | loaded
  | errorVal (e : JsError)
  | tLit
deriving Repr, DecidableEq

/-- Module state of camera panel revision 1 (part_001 lines 1-97):
let server_ip (undefined), const cameras = ref() and let arr = [].
No text ref is declared in this revision. -/
structure PanelStateV1 where
  server_ip : Option String
  cameras : Option (List Camera)
  arr : List Camera
deriving Repr, DecidableEq

/-- Module state of camera panel revision 2 (part_001 lines 97-end), which
additionally declares const text = ref(). -/
structure PanelStateV2 where
  server_ip : Option String
  cameras : Option (List Camera)
  arr : List Camera
  text : TextVal
deriving Repr, DecidableEq

/-- State of revision 1 right after module evaluation. -/
def initialStateV1 : PanelStateV1 :=
  { server_ip := none, cameras := none, arr := [] }

/-- State of revision 2 right after module evaluation. -/
def initialStateV2 : PanelStateV2 :=
  { server_ip := none, cameras := none, arr := [], text := TextVal.undef }

/-- The camera-list URL template http with the interpolated server ip and
port 8000, path /v1/cameras. -/
def cameraListUrl (server_ip : Option String) : String :=
  "http://" ++ jsString server_ip ++ ":8000/v1/cameras"

/-- The GET request get_list passes to fetch: the camera-list URL with the
single Authorization header. -/
def cameraListRequest (server_ip : Option String) : Request :=
  { method := "GET"
  , url := cameraListUrl server_ip
  , headers := [("Authorization", authHeaderValue)] }

/-- get_list of revision 2 (part_001 lines 110-132).  One call: arr is
reset to [] first, invoke fetch_server_ip is started and its then-handler
(server_ip = ip) runs asynchronously with resolvedIp, text is set to the
fetching literal, camera_url is built synchronously from the value
server_ip holds at call time, and the fetch chain settles with the
environment outcome.  On a parsed body: text is set to the stringified
body, cameras.value to body.cameras, then body.cameras.forEach pushes each
element onto arr and text becomes the loaded literal; if body.cameras is
undefined the forEach dereference throws a TypeError which the catch
handler stores in text.  On a rejection the catch handler stores the error
in text.  Returns the new state and the issued HTTP requests. -/
def get_list_v2 (s : PanelStateV2) (resolvedIp : String)
    (out : FetchOutcome) : PanelStateV2 × List Request :=
  let s1 : PanelStateV2 := { s with arr := [] }
  let req := cameraListRequest s1.server_ip
  let s2 : PanelStateV2 :=
    { s1 with text := TextVal.fetching, server_ip := some resolvedIp }
  match out with
  | FetchOutcome.reject msg =>
      ({ s2 with text := TextVal.errorVal (JsError.fetchFailed msg) }, [req])
  | FetchOutcome.bodyReject msg =>
      ({ s2 with text := TextVal.errorVal (JsError.jsonDecode msg) }, [req])
  | FetchOutcome.ok body =>
      match body.cameras with
      | none =>
          ({ s2 with
              cameras := none
            , text := TextVal.errorVal JsError.typeErrorUndefinedForEach },
            [req])
      | some cs =>
          ({ s2 with
              cameras := some cs
            , arr := s2.arr ++ cs
            , text := TextVal.loaded }, [req])

/-- get_list of revision 1 (part_001 lines 10-30).  The script of this
revision never declares text, so the first statement of the success handler
(text.value = JSON.stringify(body)) throws a ReferenceError before
cameras.value is assigned or anything is pushed onto arr, and the catch
handler (text.value = error) throws the same ReferenceError, leaving the
rejection unhandled.  Hence on every outcome the only state change is the
asynchronous server_ip update from invoke; arr and cameras are untouched.
The fetch itself is still issued, against the URL built from the value
server_ip holds at call time. -/
def get_list_v1 (s : PanelStateV1) (resolvedIp : String)
    (_out : FetchOutcome) : PanelStateV1 × List Request :=
  let req := cameraListRequest s.server_ip
  ({ s with server_ip := some resolvedIp }, [req])

/-- Environment-chosen outcome of the reconnect POST: fetch fulfills with
some HTTP status (fetch fulfills even on error statuses) or rejects with a
network failure. -/
inductive ReconnectOutcome where
  | fulfilled (httpStatus : Nat)
  | rejected (msg : String)
deriving Repr, DecidableEq

/-- The reconnect POST request built by refresh_list. -/
def reconnectRequest (server_ip : Option String) : Request :=
  { method := "POST"
  , url := "http://" ++ jsString server_ip ++ ":8000/v1/cameras/reconnect"
  , headers := [("Authorization", authHeaderValue)] }

/-- refresh_list of revision 2 (part_001 lines 134-143): POST the reconnect
URL built from the current server_ip, then .then with only a fulfillment
handler that calls get_list.  No rejection handler or catch is attached, so
when the POST rejects get_list is never called and the rejection is
unhandled; when it fulfills (any HTTP status) get_list runs with its own
environment outcome. -/
def refresh_list_v2 (s : PanelStateV2) (rout : ReconnectOutcome)
    (resolvedIp : String) (lout : FetchOutcome) :
    PanelStateV2 × List Request :=
  let req := reconnectRequest s.server_ip
  match rout with
  | ReconnectOutcome.rejected _ => (s, [req])
  | ReconnectOutcome.fulfilled _ =>
      let r := get_list_v2 s resolvedIp lout
      (r.1, req :: r.2)

/-- refresh_list of revision 1 (part_001 lines 32-41): same structure, the
nested call being the revision-1 get_list. -/
def refresh_list_v1 (s : PanelStateV1) (rout : ReconnectOutcome)
    (resolvedIp : String) (lout : FetchOutcome) :
    PanelStateV1 × List Request :=
  let req := reconnectRequest s.server_ip
  match rout with
  | ReconnectOutcome.rejected _ => (s, [req])
  | ReconnectOutcome.fulfilled _ =>
      let r := get_list_v1 s resolvedIp lout
      (r.1, req :: r.2)

/-- Pan-command request of revision 2: POST to the server base built from
the current server_ip, path /v1/camera with ip, x_movement and y_movement
query parameters rendered as this revision writes them, with the single
Authorization header. -/
def panRequestV2 (server_ip : Option String) (ip x y : String) : Request :=
  { method := "POST"
  , url := "http://" ++ jsString server_ip ++ ":8000/v1/camera?ip=" ++ ip ++
      "&x_movement=" ++ x ++ "&y_movement=" ++ y
  , headers := [("Authorization", authHeaderValue)] }

/-- cam_right of revision 2 (part_001 lines 145-154): one POST with
x_movement=-0.2 and y_movement=0, then text.value is set to the literal t.
Returns the new state and the issued requests. -/
def cam_right_v2 (s : PanelStateV2) (ip : String) :
    PanelStateV2 × List Request :=
  ({ s with text := TextVal.tLit }, [panRequestV2 s.server_ip ip "-0.2" "0"])

/-- cam_left of revision 2 (part_001 lines 156-163): one POST with
x_movement=0.2 and y_movement=0. -/
def cam_left_v2 (s : PanelStateV2) (ip : String) :
    PanelStateV2 × List Request :=
  (s, [panRequestV2 s.server_ip ip "0.2" "0"])

/-- cam_up of revision 2 (part_001 lines 165-172): one POST with
x_movement=0 and y_movement=0.2. -/
def cam_up_v2 (s : PanelStateV2) (ip : String) :
    PanelStateV2 × List Request :=
  (s, [panRequestV2 s.server_ip ip "0" "0.2"])

/-- cam_down of revision 2 (part_001 lines 174-181): one POST with
x_movement=0 and y_movement=-0.2. -/
def cam_down_v2 (s : PanelStateV2) (ip : String) :
    PanelStateV2 × List Request :=
  (s, [panRequestV2 s.server_ip ip "0" "-0.2"])

/-- Pan-command request of revision 1: the template literal starts directly
with the interpolated camera ip (no scheme and no server address), port
8000, with the given query parameters and the given literal header list. -/
def panRequestV1 (ip x y : String) (hs : List (String × String)) :
    Request :=
  { method := "POST"
  , url := ip ++ ":8000/v1/camera?ip=" ++ ip ++ "&x_movement=" ++ x ++
      "&y_movement=" ++ y
  , headers := hs }

/-- cam_right of revision 1 (part_001 lines 43-51): one POST with
x_movement=0.2, to the camera-ip base, Authorization header. -/
def cam_right_v1 (ip : String) : List Request :=
  [panRequestV1 ip "0.2" "0" [("Authorization", authHeaderValue)]]

/-- cam_left of revision 1 (part_001 lines 53-60): one POST with
x_movement=-0.2, to the camera-ip base, Authorization header. -/
def cam_left_v1 (ip : String) : List Request :=
  [panRequestV1 ip "-0.2" "0" [("Authorization", authHeaderValue)]]

/-- cam_up of revision 1 (part_001 lines 62-69): one POST with
y_movement=0.2; the header name is the misspelled Atthorization. -/
def cam_up_v1 (ip : String) : List Request :=
  [panRequestV1 ip "0" "0.2" [("Atthorization", authHeaderValue)]]

/-- cam_down of revision 1 (part_001 lines 71-78): one POST with
y_movement=-0.2; the header name carries two trailing spaces. -/
def cam_down_v1 (ip : String) : List Request :=
  [panRequestV1 ip "0" "-0.2" [("Authorization  ", authHeaderValue)]]

/-- The left button of the React camera_panel in part_000 (line 16): one
POST to the hardcoded address with x_movement=0.2, Authorization header. -/
def camera_panel_left_000 : Request :=
  { method := "POST"
  , url :=
      "http://192.168.1.5:8000/v1/camera?ip=192.168.1.6&x_movement=0.2&y_movement=0.0"
  , headers := [("Authorization", authHeaderValue)] }

/-- The right button of the React camera_panel in part_000 (line 17): one
POST to the hardcoded address with x_movement=-0.2, Authorization header. -/
def camera_panel_right_000 : Request :=
  { method := "POST"
  , url :=
      "http://192.168.1.5:8000/v1/camera?ip=192.168.1.6&x_movement=-0.2&y_movement=0.0"
  , headers := [("Authorization", authHeaderValue)] }

/-- The parsed JSON body of a health response; the message field may be
absent. -/
structure HealthBody where
  message : Option String
deriving Repr, DecidableEq

/-- Result of JSON.parse on the text of an ok health response: either the
parse throws or a body is obtained. -/
inductive ParsedHealth where
  | parseFail (msg : String)
  | parsed (body : HealthBody)
deriving Repr, DecidableEq

/-- Environment-chosen outcome of one health probe: the fetch rejects
(network failure or the 1000 ms abort), the response arrives with ok false
and some status code (the handler then throws and the catch runs), or the
response is ok and JSON.parse of its text either throws or yields a
body. -/
inductive ProbeOutcome where
  | reject (msg : String)
  | notOkStatus (code : Nat)
  | okBody (parsed : ParsedHealth)
deriving Repr, DecidableEq

/-- The error value reaching the catch handler of fetchServerHealth. -/
inductive HealthError where
  | fetchRejected (msg : String)
  | httpStatusError (code : Nat)
  | parseError (msg : String)
deriving Repr, DecidableEq

/-- Value of the server_status ref: a literal string (the initial empty
string, Ip Not Set, Health Check Disabled, or a parsed message), the
undefined obtained when the parsed body lacks a message field, or the
concatenation Error fetching - with the caught error. -/
inductive ServerStatus where
  | text (s : String)
  | undefinedMsg
  | fetchErrorOf (e : HealthError)
deriving Repr, DecidableEq

/-- fetchServerHealth of server_bar.vue (lines 8-37) as a function of the
ip_address ref, the health_check_enabled ref and the probe outcome,
returning the value stored into server_status: the empty-address guard
returns Ip Not Set first, then the disabled guard returns Health Check
Disabled, otherwise the probe result is mapped as the handlers do. -/
def fetchServerHealth (ip : String) (enabled : Bool)
    (probe : ProbeOutcome) : ServerStatus :=
  if ip = "" then ServerStatus.text "Ip Not Set"
  else if enabled = false then ServerStatus.text "Health Check Disabled"
  else
    match probe with
    | ProbeOutcome.reject msg =>
        ServerStatus.fetchErrorOf (HealthError.fetchRejected msg)
    | ProbeOutcome.notOkStatus code =>
        ServerStatus.fetchErrorOf (HealthError.httpStatusError code)
    | ProbeOutcome.okBody (ParsedHealth.parseFail msg) =>
        ServerStatus.fetchErrorOf (HealthError.parseError msg)
    | ProbeOutcome.okBody (ParsedHealth.parsed body) =>
        match body.message with
        | some m => ServerStatus.text m
        | none => ServerStatus.undefinedMsg

/-- The GET request fetchServerHealth passes to fetch (server_bar.vue line
18): the health URL for the current address, with an options object
containing only an abort signal and no headers at all. -/
def healthRequest (ip : String) : Request :=
  { method := "GET", url := "http://" ++ ip ++ ":8000/health"
  , headers := [] }

/-- The HTTP requests one fetchServerHealth call issues: none when either
guard returns early, otherwise exactly the health probe. -/
def fetchServerHealthRequests (ip : String) (enabled : Bool) :
    List Request :=
  if ip = "" then []
  else if enabled = false then []
  else [healthRequest ip]

/-!
Event model of the mounted health monitor (server_bar.vue lines 43-46).
onMounted installs setInterval(fetchServerHealth, 1000): every 1000 ms a
tick runs fetchServerHealth, which launches a probe fetch whenever the two
guards pass, without consulting any in-flight bookkeeping (none exists in
the code).  A launched probe settles at some later point chosen by the
environment; its only bound is its own AbortSignal.timeout(1000), a
wall-clock timer equal to the tick interval and tied to nothing else, so a
tick can run while the previous probe is still unsettled.  Changing the
address aborts nothing.  We model the interleaving as a list of events
folded over a state carrying the number of unsettled probes.
-/

/-- Observable monitor state: current address, the enabled flag and the
number of launched, not yet settled probe fetches. -/
structure MonitorState where
  ip : String
  enabled : Bool
  inFlight : Nat
deriving Repr, DecidableEq

/-- One scheduler event: an interval tick (runs fetchServerHealth), the
settlement of one outstanding probe, or the operator changing the
address. -/
inductive MonitorEvent where
  | tick
  | settle
  | setAddress (newIp : String)
deriving Repr, DecidableEq

/-- Effect of one event on the monitor state.  A tick returns early on an
empty address or a disabled flag and otherwise launches a probe; nothing in
fetchServerHealth inspects or limits the number already in flight.  A
settlement retires one probe.  An address change updates the address and
cancels nothing: the only abort signal in the code is the per-request
1000 ms timeout. -/
def monitorStep (s : MonitorState) (e : MonitorEvent) : MonitorState :=
  match e with
  | MonitorEvent.tick =>
      if s.ip = "" then s
      else if s.enabled = false then s
      else { s with inFlight := s.inFlight + 1 }
  | MonitorEvent.settle => { s with inFlight := s.inFlight - 1 }
  | MonitorEvent.setAddress newIp => { s with ip := newIp }

/-- Folding a list of scheduler events over the monitor state. -/
def monitorRun (s : MonitorState) : List MonitorEvent → MonitorState
  | [] => s
  | e :: es => monitorRun (monitorStep s e) es

/-- The camera of the spec example scenario. -/
def cam1 : Camera :=
  { hostname := "cam1", ip := "10.0.0.6", stream_path := "/cam1/" }

/-- A second concrete camera used to distinguish refresh generations. -/
def cam2 : Camera :=
  { hostname := "cam2", ip := "10.0.0.7", stream_path := "/cam2/" }

/-- A concrete revision-2 panel state holding one loaded camera. -/
def loadedStateV2 : PanelStateV2 :=
  { server_ip := some "10.0.0.5", cameras := some [cam1], arr := [cam1]
  , text := TextVal.loaded }

/-- A concrete revision-1 panel state holding one loaded camera. -/
def loadedStateV1 : PanelStateV1 :=
  { server_ip := some "10.0.0.5", cameras := some [cam1], arr := [cam1] }

/-- C6: whenever the address is the empty string, fetchServerHealth stores
the Ip Not Set status, for every value of the enabled flag and every probe
outcome; the empty-address guard precedes the disabled guard. -/
theorem c6_empty_address_always_unset (enabled : Bool)
    (probe : ProbeOutcome) :
    fetchServerHealth "" enabled probe = ServerStatus.text "Ip Not Set" :=
  rfl

/-- C10: in both panel revisions, get_list builds the camera-list request
from the value server_ip holds at call time; the ip resolved by the invoke
call only lands in the post-call state, so every refresh targets the
address obtained by a previous call.  On the initial module state the
fetched URL is the host string undefined.  refresh_list builds its
reconnect POST from the same current server_ip. -/
theorem c10_refresh_targets_stale_address :
    (∀ (s : PanelStateV2) (rip : String) (out : FetchOutcome),
        (get_list_v2 s rip out).2 = [cameraListRequest s.server_ip] ∧
        (get_list_v2 s rip out).1.server_ip = some rip) ∧
    (∀ (s : PanelStateV1) (rip : String) (out : FetchOutcome),
        (get_list_v1 s rip out).2 = [cameraListRequest s.server_ip] ∧
        (get_list_v1 s rip out).1.server_ip = some rip) ∧
    (∀ (rip : String) (out : FetchOutcome),
        (get_list_v2 initialStateV2 rip out).2.map Request.url =
          ["http://undefined:8000/v1/cameras"] ∧
        (get_list_v1 initialStateV1 rip out).2.map Request.url =
          ["http://undefined:8000/v1/cameras"]) ∧
    (∀ (s : PanelStateV2) (rout : ReconnectOutcome) (rip : String)
        (lout : FetchOutcome),
        (refresh_list_v2 s rout rip lout).2.head? =
          some (reconnectRequest s.server_ip)) ∧
    (∀ (s : PanelStateV1) (rout : ReconnectOutcome) (rip : String)
        (lout : FetchOutcome),
        (refresh_list_v1 s rout rip lout).2.head? =
          some (reconnectRequest s.server_ip)) := by
  refine ⟨fun s rip out => ?_, fun s rip out => ⟨rfl, rfl⟩,
    fun rip out => ?_, fun s rout rip lout => ?_,
    fun s rout rip lout => ?_⟩
  · cases out with
    | reject msg => exact ⟨rfl, rfl⟩
    | bodyReject msg => exact ⟨rfl, rfl⟩
    | ok body => cases body with
      | mk cameras => cases cameras with
        | none => exact ⟨rfl, rfl⟩
        | some cs => exact ⟨rfl, rfl⟩
  · cases out with
    | reject msg => exact ⟨rfl, rfl⟩
    | bodyReject msg => exact ⟨rfl, rfl⟩
    | ok body => cases body with
      | mk cameras => cases cameras with
        | none => exact ⟨rfl, rfl⟩
        | some cs => exact ⟨rfl, rfl⟩
  · cases rout with
    | rejected msg => rfl
    | fulfilled code => cases lout with
      | reject msg => rfl
      | bodyReject msg => rfl
      | ok body => cases body with
        | mk cameras => cases cameras with
          | none => rfl
          | some cs => rfl
  · cases rout with
    | rejected msg => rfl
    | fulfilled code => rfl

/-- C1 counterexample: the claim that a failing refresh leaves the
displayed camera list byte-for-byte unchanged is false for the current
panel revision: starting from a state displaying one camera, a get_list
call whose fetch rejects leaves the displayed arr empty, not equal to the
pre-call list, because get_list empties arr at the start of every call. -/
theorem c1_cleared_list_counterexample :
    (get_list_v2 loadedStateV2 "10.0.0.5"
        (FetchOutcome.reject "TypeError: Failed to fetch")).1.arr = [] ∧
    (get_list_v2 loadedStateV2 "10.0.0.5"
        (FetchOutcome.reject "TypeError: Failed to fetch")).1.arr ≠
      loadedStateV2.arr := by
  constructor
  · rfl
  · decide

/-- C1 amended: in the current panel revision, a refresh whose fetch
rejects or whose body fails to parse leaves the cameras ref unchanged and
stores the error in the text display, but the displayed arr list has
already been emptied at call start, so after the failing call it is empty
rather than equal to the pre-call list; in the earlier revision a failing
refresh leaves both arr and the cameras ref unchanged (its handlers throw
on the undeclared text binding, so the error is never surfaced). -/
theorem c1_failure_keeps_cameras_ref_but_clears_displayed_list
    (s : PanelStateV2) (s1 : PanelStateV1) (rip msg : String) :
    ((get_list_v2 s rip (FetchOutcome.reject msg)).1.cameras = s.cameras ∧
     (get_list_v2 s rip (FetchOutcome.reject msg)).1.arr = [] ∧
     (get_list_v2 s rip (FetchOutcome.reject msg)).1.text =
       TextVal.errorVal (JsError.fetchFailed msg)) ∧
    ((get_list_v2 s rip (FetchOutcome.bodyReject msg)).1.cameras =
       s.cameras ∧
     (get_list_v2 s rip (FetchOutcome.bodyReject msg)).1.arr = [] ∧
     (get_list_v2 s rip (FetchOutcome.bodyReject msg)).1.text =
       TextVal.errorVal (JsError.jsonDecode msg)) ∧
    ((get_list_v1 s1 rip (FetchOutcome.reject msg)).1.arr = s1.arr ∧
     (get_list_v1 s1 rip (FetchOutcome.reject msg)).1.cameras =
       s1.cameras) :=
  ⟨⟨rfl, rfl, rfl⟩, ⟨rfl, rfl, rfl⟩, rfl, rfl⟩

/-- C4 counterexample: the claim that every successful refresh replaces the
held sequence by exactly the cameras of the response is false for the
earlier panel revision: its success handler dereferences the undeclared
text binding and throws before installing anything, so after a successful
fetch delivering cam2 the displayed list still holds the old cam1 and the
new record is never installed. -/
theorem c4_stale_records_counterexample :
    (get_list_v1 loadedStateV1 "10.0.0.5"
        (FetchOutcome.ok { cameras := some [cam2] })).1.arr = [cam1] ∧
    (get_list_v1 loadedStateV1 "10.0.0.5"
        (FetchOutcome.ok { cameras := some [cam2] })).1.arr ≠ [cam2] := by
  constructor
  · rfl
  · decide

/-- C4 amended: in the current panel revision a successful refresh replaces
the displayed list wholesale by exactly the cameras of the response body in
order (arr was emptied at call start, so nothing from earlier refreshes
remains) and sets the cameras ref to the same sequence; in the earlier
revision the success handler throws on the undeclared text binding and both
arr and the cameras ref keep their pre-call contents. -/
theorem c4_wholesale_replacement_only_in_second_revision
    (s : PanelStateV2) (s1 : PanelStateV1) (rip : String)
    (cs : List Camera) :
    ((get_list_v2 s rip (FetchOutcome.ok { cameras := some cs })).1.arr =
       cs ∧
     (get_list_v2 s rip
        (FetchOutcome.ok { cameras := some cs })).1.cameras = some cs ∧
     (get_list_v2 s rip (FetchOutcome.ok { cameras := some cs })).1.text =
       TextVal.loaded) ∧
    ((get_list_v1 s1 rip (FetchOutcome.ok { cameras := some cs })).1.arr =
       s1.arr ∧
     (get_list_v1 s1 rip
        (FetchOutcome.ok { cameras := some cs })).1.cameras =
       s1.cameras) := by
  refine ⟨⟨?_, rfl, rfl⟩, rfl, rfl⟩
  show [] ++ cs = cs
  exact List.nil_append cs

/-- C2 counterexample: in the current panel revision the left button calls
cam_left, and in the spec scenario (server 10.0.0.5, camera control address
10.0.0.6) that press issues its one POST with x_movement=0.2, not the
claimed x_movement=-0.2. -/
theorem c2_inverted_left_counterexample :
    (cam_left_v2 loadedStateV2 "10.0.0.6").2.map Request.url =
      ["http://10.0.0.5:8000/v1/camera?ip=10.0.0.6&x_movement=0.2&y_movement=0"] ∧
    (cam_left_v2 loadedStateV2 "10.0.0.6").2.map Request.url ≠
      ["http://10.0.0.5:8000/v1/camera?ip=10.0.0.6&x_movement=-0.2&y_movement=0"] := by
  constructor
  · rfl
  · decide

/-- C2 amended: every directional press issues exactly one POST with a
fixed 0.2-magnitude step on one axis, but the x-axis signs are inverted
relative to the claim in the current panel revision (left sends
x_movement=0.2 and right sends x_movement=-0.2, to the server base), while
in the earlier revision left does send x_movement=-0.2 but the request goes
to the camera address itself as base (no scheme, no server address); up and
down send y_movement=0.2 and y_movement=-0.2 respectively. -/
theorem c2_one_fixed_step_post_per_press (s : PanelStateV2)
    (sip ip : String) (h : s.server_ip = some sip) :
    (cam_left_v2 s ip).2.map Request.url =
      ["http://" ++ sip ++ ":8000/v1/camera?ip=" ++ ip ++
        "&x_movement=" ++ "0.2" ++ "&y_movement=" ++ "0"] ∧
    (cam_right_v2 s ip).2.map Request.url =
      ["http://" ++ sip ++ ":8000/v1/camera?ip=" ++ ip ++
        "&x_movement=" ++ "-0.2" ++ "&y_movement=" ++ "0"] ∧
    (cam_up_v2 s ip).2.map Request.url =
      ["http://" ++ sip ++ ":8000/v1/camera?ip=" ++ ip ++
        "&x_movement=" ++ "0" ++ "&y_movement=" ++ "0.2"] ∧
    (cam_down_v2 s ip).2.map Request.url =
      ["http://" ++ sip ++ ":8000/v1/camera?ip=" ++ ip ++
        "&x_movement=" ++ "0" ++ "&y_movement=" ++ "-0.2"] ∧
    (cam_left_v1 ip).map Request.url =
      [ip ++ ":8000/v1/camera?ip=" ++ ip ++
        "&x_movement=" ++ "-0.2" ++ "&y_movement=" ++ "0"] ∧
    (cam_right_v1 ip).map Request.url =
      [ip ++ ":8000/v1/camera?ip=" ++ ip ++
        "&x_movement=" ++ "0.2" ++ "&y_movement=" ++ "0"] ∧
    (cam_left_v2 s ip).2.length = 1 ∧
    (cam_right_v2 s ip).2.length = 1 ∧
    (cam_up_v2 s ip).2.length = 1 ∧
    (cam_down_v2 s ip).2.length = 1 := by
  obtain ⟨sip0, cams0, arr0, text0⟩ := s
  change sip0 = some sip at h
  subst h
  exact ⟨rfl, rfl, rfl, rfl, rfl, rfl, rfl, rfl, rfl, rfl⟩

/-- C2 witness: the amended statement instantiated at the spec scenario. -/
theorem c2_one_fixed_step_post_per_press_witness :
    (cam_left_v2 loadedStateV2 "10.0.0.6").2.map Request.url =
      ["http://" ++ "10.0.0.5" ++ ":8000/v1/camera?ip=" ++ "10.0.0.6" ++
        "&x_movement=" ++ "0.2" ++ "&y_movement=" ++ "0"] :=
  (c2_one_fixed_step_post_per_press loadedStateV2 "10.0.0.5" "10.0.0.6"
    rfl).1

/-- C3 counterexample: the claim that a directory refresh is attempted
after every reconnect, including when the reconnect POST rejects, is false:
when the POST rejects, refresh_list issues only the reconnect request (no
camera-list GET follows, because the then-handler calling get_list has no
rejection branch) and the panel state is completely untouched, so the
reconnect failure is not even surfaced. -/
theorem c3_rejected_reconnect_skips_refresh_counterexample :
    (refresh_list_v2 loadedStateV2
        (ReconnectOutcome.rejected "TypeError: Failed to fetch") "10.0.0.5"
        (FetchOutcome.ok { cameras := some [cam1] })).2.map Request.url =
      ["http://10.0.0.5:8000/v1/cameras/reconnect"] ∧
    (refresh_list_v2 loadedStateV2
        (ReconnectOutcome.rejected "TypeError: Failed to fetch") "10.0.0.5"
        (FetchOutcome.ok { cameras := some [cam1] })).1 =
      loadedStateV2 := by
  constructor
  · rfl
  · rfl

/-- C3 amended: refresh_list performs the follow-up get_list exactly when
the reconnect POST fulfills, which covers every HTTP status (fetch fulfills
on error statuses too); when the POST rejects with a network failure, no
refresh is attempted, no further request is issued and the rejection is
unhandled, leaving the state unchanged.  The same holds in the earlier
revision. -/
theorem c3_refresh_follows_only_fulfilled_reconnect (s : PanelStateV2)
    (s1 : PanelStateV1) (rip msg : String) (code : Nat)
    (lout : FetchOutcome) :
    ((refresh_list_v2 s (ReconnectOutcome.fulfilled code) rip lout).2 =
       reconnectRequest s.server_ip :: (get_list_v2 s rip lout).2 ∧
     (refresh_list_v2 s (ReconnectOutcome.fulfilled code) rip lout).1 =
       (get_list_v2 s rip lout).1) ∧
    ((refresh_list_v2 s (ReconnectOutcome.rejected msg) rip lout).2 =
       [reconnectRequest s.server_ip] ∧
     (refresh_list_v2 s (ReconnectOutcome.rejected msg) rip lout).1 = s) ∧
    ((refresh_list_v1 s1 (ReconnectOutcome.fulfilled code) rip lout).2 =
       reconnectRequest s1.server_ip :: (get_list_v1 s1 rip lout).2 ∧
     (refresh_list_v1 s1 (ReconnectOutcome.rejected msg) rip lout).1 =
       s1) :=
  ⟨⟨rfl, rfl⟩, ⟨rfl, rfl⟩, rfl, rfl⟩

/-- C5 counterexample: the claim that every control-plane request carries
the fixed Basic credential in an Authorization header is false: the health
probe issued by fetchServerHealth for an enabled check on a set address
passes no headers at all, and in the earlier camera panel revision cam_up
sends the credential under the misspelled name Atthorization. -/
theorem c5_missing_auth_counterexample :
    fetchServerHealthRequests "10.0.0.5" true = [healthRequest "10.0.0.5"] ∧
    (healthRequest "10.0.0.5").headers = [] ∧
    (cam_up_v1 "10.0.0.6").map Request.headers =
      [[("Atthorization", authHeaderValue)]] ∧
    ("Atthorization" : String) ≠ "Authorization" := by
  refine ⟨rfl, rfl, rfl, ?_⟩
  decide

/-- C5 amended: the camera-list GET, the reconnect POST, the four pan
commands of the current panel revision, the two hardcoded pan requests of
the React panel and the left and right commands of the earlier revision all
carry the fixed Basic credential under the header name Authorization; but
in the earlier revision cam_up sends it under the misspelled name
Atthorization and cam_down under a name with two trailing spaces, and the
health probe carries no header at all. -/
theorem c5_credential_on_panel_requests_only (sip : Option String)
    (s : PanelStateV2) (ip : String) :
    (cameraListRequest sip).headers =
      [("Authorization", authHeaderValue)] ∧
    (reconnectRequest sip).headers =
      [("Authorization", authHeaderValue)] ∧
    (cam_left_v2 s ip).2.map Request.headers =
      [[("Authorization", authHeaderValue)]] ∧
    (cam_right_v2 s ip).2.map Request.headers =
      [[("Authorization", authHeaderValue)]] ∧
    (cam_up_v2 s ip).2.map Request.headers =
      [[("Authorization", authHeaderValue)]] ∧
    (cam_down_v2 s ip).2.map Request.headers =
      [[("Authorization", authHeaderValue)]] ∧
    camera_panel_left_000.headers = [("Authorization", authHeaderValue)] ∧
    camera_panel_right_000.headers = [("Authorization", authHeaderValue)] ∧
    (cam_left_v1 ip).map Request.headers =
      [[("Authorization", authHeaderValue)]] ∧
    (cam_right_v1 ip).map Request.headers =
      [[("Authorization", authHeaderValue)]] ∧
    (cam_up_v1 ip).map Request.headers =
      [[("Atthorization", authHeaderValue)]] ∧
    (cam_down_v1 ip).map Request.headers =
      [[("Authorization  ", authHeaderValue)]] ∧
    (healthRequest ip).headers = [] :=
  ⟨rfl, rfl, rfl, rfl, rfl, rfl, rfl, rfl, rfl, rfl, rfl, rfl, rfl⟩

/-- C7 counterexample: the claim that health probes are single-flight is
false in the event model of the mounted monitor: with a set address and
checks enabled, two consecutive interval ticks with the first probe not yet
settled leave two probes in flight, because fetchServerHealth launches a
probe on every tick without consulting any in-flight state and the only
bound on a probe is its own 1000 ms abort timer, equal to the tick
interval. -/
theorem c7_overlapping_probes_counterexample :
    (monitorRun { ip := "10.0.0.5", enabled := true, inFlight := 0 }
      [MonitorEvent.tick, MonitorEvent.tick]).inFlight = 2 := by
  rfl

/-- C7 amended: there is no single-flight mechanism: whenever the address
is non-empty and checks are enabled, a tick unconditionally launches one
more probe on top of however many are already in flight, and an address
change cancels nothing (the in-flight count is unchanged); overlap is
prevented only as far as each probe is individually bounded by its own
1000 ms timeout. -/
theorem c7_every_tick_launches_probe (s : MonitorState) (newIp : String)
    (h1 : s.ip ≠ "") (h2 : s.enabled = true) :
    (monitorStep s MonitorEvent.tick).inFlight = s.inFlight + 1 ∧
    (monitorStep s (MonitorEvent.setAddress newIp)).inFlight =
      s.inFlight := by
  constructor
  · simp [monitorStep, h1, h2]
  · rfl

/-- C7 witness: the amended statement at a state with one probe already in
flight. -/
theorem c7_every_tick_launches_probe_witness :
    (monitorStep { ip := "10.0.0.5", enabled := true, inFlight := 1 }
        MonitorEvent.tick).inFlight = 1 + 1 ∧
    (monitorStep { ip := "10.0.0.5", enabled := true, inFlight := 1 }
        (MonitorEvent.setAddress "10.0.0.9")).inFlight = 1 :=
  c7_every_tick_launches_probe
    { ip := "10.0.0.5", enabled := true, inFlight := 1 } "10.0.0.9"
    (by decide) rfl

/-- C8 counterexample: the claim that a well-formed body with a missing
cameras list yields an empty sequence and a success outcome is false: on a
parsed body without a cameras field, the forEach dereference of undefined
throws a TypeError, the catch stores that error in the text display, and
the outcome is the error text, not the success literal Cameras Loaded
Successfully. -/
theorem c8_missing_list_is_error_counterexample :
    (get_list_v2 initialStateV2 "10.0.0.5"
        (FetchOutcome.ok { cameras := none })).1.text =
      TextVal.errorVal JsError.typeErrorUndefinedForEach ∧
    (get_list_v2 initialStateV2 "10.0.0.5"
        (FetchOutcome.ok { cameras := none })).1.text ≠ TextVal.loaded := by
  constructor
  · rfl
  · decide

/-- C8 amended: a well-formed body with an empty cameras list yields an
empty displayed sequence, an empty cameras ref and the success outcome; but
a body missing the cameras field yields an error outcome (the forEach on
undefined throws a TypeError stored in the text display) with the cameras
ref overwritten by undefined, the displayed sequence being empty only
because every call empties it first. -/
theorem c8_empty_list_succeeds_missing_list_errors (s : PanelStateV2)
    (rip : String) :
    ((get_list_v2 s rip (FetchOutcome.ok { cameras := some [] })).1.arr =
       [] ∧
     (get_list_v2 s rip
        (FetchOutcome.ok { cameras := some [] })).1.cameras = some [] ∧
     (get_list_v2 s rip (FetchOutcome.ok { cameras := some [] })).1.text =
       TextVal.loaded) ∧
    ((get_list_v2 s rip (FetchOutcome.ok { cameras := none })).1.arr =
       [] ∧
     (get_list_v2 s rip (FetchOutcome.ok { cameras := none })).1.cameras =
       none ∧
     (get_list_v2 s rip (FetchOutcome.ok { cameras := none })).1.text =
       TextVal.errorVal JsError.typeErrorUndefinedForEach) :=
  ⟨⟨rfl, rfl, rfl⟩, rfl, rfl, rfl⟩

/-- C9 counterexample: the claim that a command for a camera absent from
the current directory fails with UnknownCamera and issues no network
request is false: with an empty directory (both the displayed list and the
cameras ref hold no camera with ip 10.0.0.6), cam_left still issues exactly
one POST targeting that ip; no UnknownCamera failure exists anywhere in the
code. -/
theorem c9_absent_camera_still_posts_counterexample :
    (cam_left_v2 initialStateV2 "10.0.0.6").2.length = 1 ∧
    (cam_left_v2 initialStateV2 "10.0.0.6").2.map Request.url =
      ["http://undefined:8000/v1/camera?ip=" ++ "10.0.0.6" ++
        "&x_movement=" ++ "0.2" ++ "&y_movement=" ++ "0"] := by
  constructor
  · rfl
  · decide

/-- C9 amended: the command functions take the control address directly
from the clicked row and never consult the directory: even when no record
of the current directory carries the given ip, each of the four commands
issues exactly one POST whose query names that ip, and no failure value is
produced.  Stale references are prevented only by the template rendering
buttons solely for listed cameras. -/
theorem c9_commands_never_check_directory (s : PanelStateV2) (ip : String)
    (h : ∀ c ∈ s.arr, c.ip ≠ ip) :
    (cam_left_v2 s ip).2.length = 1 ∧
    (cam_right_v2 s ip).2.length = 1 ∧
    (cam_up_v2 s ip).2.length = 1 ∧
    (cam_down_v2 s ip).2.length = 1 ∧
    (cam_left_v2 s ip).2 = [panRequestV2 s.server_ip ip "0.2" "0"] ∧
    (cam_right_v2 s ip).2 = [panRequestV2 s.server_ip ip "-0.2" "0"] ∧
    (cam_up_v2 s ip).2 = [panRequestV2 s.server_ip ip "0" "0.2"] ∧
    (cam_down_v2 s ip).2 = [panRequestV2 s.server_ip ip "0" "-0.2"] :=
  ⟨rfl, rfl, rfl, rfl, rfl, rfl, rfl, rfl⟩

/-- C9 witness: the amended statement at the empty initial directory, where
no record at all carries the ip 10.0.0.6. -/
theorem c9_commands_never_check_directory_witness :
    (cam_left_v2 initialStateV2 "10.0.0.6").2.length = 1 ∧
    (cam_right_v2 initialStateV2 "10.0.0.6").2.length = 1 ∧
    (cam_up_v2 initialStateV2 "10.0.0.6").2.length = 1 ∧
    (cam_down_v2 initialStateV2 "10.0.0.6").2.length = 1 ∧
    (cam_left_v2 initialStateV2 "10.0.0.6").2 =
      [panRequestV2 initialStateV2.server_ip "10.0.0.6" "0.2" "0"] ∧
    (cam_right_v2 initialStateV2 "10.0.0.6").2 =
      [panRequestV2 initialStateV2.server_ip "10.0.0.6" "-0.2" "0"] ∧
    (cam_up_v2 initialStateV2 "10.0.0.6").2 =
      [panRequestV2 initialStateV2.server_ip "10.0.0.6" "0" "0.2"] ∧
    (cam_down_v2 initialStateV2 "10.0.0.6").2 =
      [panRequestV2 initialStateV2.server_ip "10.0.0.6" "0" "-0.2"] :=
  c9_commands_never_check_directory initialStateV2 "10.0.0.6"
    (by intro c hc; simp [initialStateV2] at hc)
